import Mathlib

/-!
Verification of the JudgementSummarizer application (src/app3.py) against its
natural-language specification.

The Python program is shallowly embedded: every function that contains logic of
its own (`get_cache_path`, `load_cached_summary`, `save_cached_summary`,
`summarize_with_ollama`, `search_indiakanoon`, `serpapi_fallback_links`,
`fetch_structured_case_data`, `generate_summary_prompt` and the top-level
Streamlit flow) becomes a Lean definition of the same name.  External effects
(HTTP responses, parsed HTML, the subprocess outcome, the on-disk cache
directory) are passed in explicitly as oracle inputs, so each embedded function
is a pure function of the program state plus those inputs.

Python strings are sequences of code points, so they are modelled by `String`
viewed through its `data : List Char` field; Python slicing `s[:n]` is
`List.take` on that list.  The JSON cache files are modelled as association
lists of string fields; a file that exists but fails `json.load` is the
`CacheFile.corrupt` marker.
-/

namespace App3

/-! ### String primitives (Python semantics over code-point lists) -/

/-- Python slicing `s[:n]`: the first `n` code points of `s`. -/
def strTake (s : String) (n : Nat) : String := ⟨s.data.take n⟩

/-- Python `s.startswith(pre)` on code-point lists. -/
def strStartsWith (s pre : String) : Bool := pre.data.isPrefixOf s.data

/-- Python `needle in hay` (substring containment) on code-point lists. -/
def strHasSub (hay needle : String) : Bool := go needle.data hay.data
where
  go (needle : List Char) : List Char → Bool
    | [] => needle.isEmpty
    | c :: rest => needle.isPrefixOf (c :: rest) || go needle rest

/-! ### Cache layer (src/app3.py lines 12-44) -/

/-- Module-level cache directory constant (src/app3.py line 13). -/
def CACHE_DIR : String := "C:\\Users\\jassi\\Downloads\\judegement sum\\cache"

/-- Pre-digest cache key `f"{query}|{title}|{court}"` (src/app3.py line 16). -/
def cacheKeyString (query title court : String) : String :=
  query ++ "|" ++ title ++ "|" ++ court

/-- Cache path derivation (src/app3.py lines 15-18).  The SHA-256 hex digest is
an external primitive, so it is an explicit `hash` parameter; everything the
program does around it (the `|`-joined key and the `.json` file name) is
embedded literally. -/
def get_cache_path (hash : String → String) (query title court : String) : String :=
  CACHE_DIR ++ "\\" ++ (hash (cacheKeyString query title court) ++ ".json")

/-- One on-disk cache file: either a JSON object (an association list of string
fields, as written by `save_cached_summary`) or a file that exists but fails to
deserialize. -/
inductive CacheFile where
  | corrupt
  | obj (fields : List (String × String))
deriving DecidableEq

/-- The cache directory: a map from file path to file content, most recent
write first. -/
abbrev Store := List (String × CacheFile)

/-- Embeds `load_cached_summary` (src/app3.py lines 20-29): a missing file
yields `none`, a present file that fails `json.load` is caught and also yields
`none`, and a parsed file yields its fields. -/
def load_cached_summary (hash : String → String) (store : Store)
    (query title court : String) : Option (List (String × String)) :=
  match List.lookup (get_cache_path hash query title court) store with
  | some (CacheFile.obj fields) => some fields
  | some CacheFile.corrupt => none
  | none => none

/-- Embeds `save_cached_summary` (src/app3.py lines 31-44): writes a JSON
object with the four fields query/title/court/summary at the key's path
(prepending models overwriting the file). -/
def save_cached_summary (hash : String → String) (store : Store)
    (query title court summary : String) : Store :=
  (get_cache_path hash query title court,
    CacheFile.obj [("query", query), ("title", title), ("court", court),
      ("summary", summary)]) :: store

/-! ### Summarizer (src/app3.py lines 46-62) -/

/-- Outcome of the `subprocess.run(["ollama", "run", model], ...)` call:
completion with an exit code, stdout and stderr; a `TimeoutExpired`; or any
other exception with its message. -/
inductive ProcResult where
  | completed (returncode : Int) (stdout stderr : String)
  | timedOut
  | excRaised (msg : String)
deriving DecidableEq

/-- Embeds `summarize_with_ollama` (src/app3.py lines 47-62) as a function of
the subprocess outcome: non-zero exit and both exception paths produce the
sentinel strings of the source, and a zero exit returns stdout verbatim. -/
def summarize_with_ollama (run : ProcResult) : String :=
  match run with
  | ProcResult.completed rc out err =>
      if rc ≠ 0 then "⚠️ Ollama error: " ++ err else out
  | ProcResult.timedOut => "⚠️ Summarization timed out."
  | ProcResult.excRaised e => "⚠️ Unexpected error: " ++ e

/-- Recognizes the three sentinel error strings `summarize_with_ollama` can
produce (all begin with the warning marker of the source). -/
def isErrorSentinel (s : String) : Bool :=
  strStartsWith s "⚠️ Ollama error: " ||
    s == "⚠️ Summarization timed out." ||
    strStartsWith s "⚠️ Unexpected error: "

/-! ### Resolution backends (src/app3.py lines 64-129) -/

/-- Outcome of an external HTTP request plus parsing: either a parsed page of
type `α`, or some exception raised inside the `try` block. -/
inductive BackendInput (α : Type) where
  | response (page : α)
  | excRaised

/-- What `search_indiakanoon` observes of the India Kanoon results page:
whether the raw HTML contains "No results found", whether it contains "/doc",
and the hrefs of the `a[href^='/doc']` anchors in document order. -/
structure KanoonPage where
  hasNoResultsMsg : Bool
  hasDocMarker : Bool
  docHrefs : List String

/-- The link-collecting loop of `search_indiakanoon` (src/app3.py lines
80-88): skip `/docfragment/` anchors, absolutize, deduplicate, and stop as
soon as one link has been collected. -/
def kanoonLoop (links : List String) : List String → List String
  | [] => links
  | href :: rest =>
      if strStartsWith href "/docfragment/" then kanoonLoop links rest
      else
        let full := "https://indiankanoon.org" ++ href
        let links' := if links.contains full then links else links ++ [full]
        if links'.length ≥ 1 then links' else kanoonLoop links' rest

/-- Embeds `search_indiakanoon` (src/app3.py lines 65-93): any exception is
caught and yields `[]`; a page claiming no results (or without any "/doc"
marker) yields `[]`; otherwise the anchors are scanned by `kanoonLoop`. -/
def search_indiakanoon : BackendInput KanoonPage → List String
  | BackendInput.excRaised => []
  | BackendInput.response p =>
      if p.hasNoResultsMsg || !p.hasDocMarker then []
      else kanoonLoop [] p.docHrefs

/-- What `serpapi_fallback_links` observes of the SerpAPI JSON: the `link`
fields of `organic_results` in order (absent links are the empty string, as
produced by `result.get("link", "")`). -/
structure SerpPage where
  organicLinks : List String

/-- The link-collecting loop of `serpapi_fallback_links` (src/app3.py lines
118-125): keep links containing "indiankanoon.org/doc" and stop as soon as one
link has been collected. -/
def serpLoop (links : List String) : List String → List String
  | [] => links
  | link :: rest =>
      let links' := if strHasSub link "indiankanoon.org/doc" then links ++ [link] else links
      if links'.length ≥ 1 then links' else serpLoop links' rest

/-- Embeds `serpapi_fallback_links` (src/app3.py lines 96-129): a missing API
key yields `[]`, any exception is caught and yields `[]`, otherwise the organic
results are scanned by `serpLoop`. -/
def serpapi_fallback_links (apiKeyPresent : Bool) : BackendInput SerpPage → List String
  | BackendInput.excRaised => []
  | BackendInput.response p =>
      if !apiKeyPresent then [] else serpLoop [] p.organicLinks

/-! ### Structured fetch (src/app3.py lines 131-153) -/

/-- What `fetch_structured_case_data` observes of a judgment page: the
`h2.docsource_main` text, the `h2.doc_title` text (each `none` when the tag is
absent), and the stripped texts of the `p[data-structure=tag]` paragraphs for
each tag. -/
structure CasePage where
  courtHeader : Option String
  titleHeader : Option String
  paras : String → List String

/-- The fixed tag list of `fetch_structured_case_data` (src/app3.py line 143). -/
def structuredTags : List String := ["Facts", "Issue", "Section", "CDiscource", "Precedent"]

/-- Embeds `fetch_structured_case_data` (src/app3.py lines 132-153): missing
headers default to the "Not Found" sentinels, empty paragraph texts are
dropped, and any exception yields the sentinels with an empty data dict. -/
def fetch_structured_case_data :
    BackendInput CasePage → String × String × List (String × List String)
  | BackendInput.excRaised => ("Court Not Found", "Title Not Found", [])
  | BackendInput.response p =>
      let court := p.courtHeader.getD "Court Not Found"
      let title := p.titleHeader.getD "Title Not Found"
      let data := structuredTags.map (fun tag => (tag, (p.paras tag).filter (fun txt => txt != "")))
      (court, title, data)

/-! ### Prompt generation (src/app3.py lines 155-176) -/

/-- The fixed instruction text of the prompt template (src/app3.py lines
162-175), up to and including the blank line after "Case details:". -/
def promptPreamble : String :=
  "You are a legal analyst. Provide a structured, concise, and formal 5000 word summary of the legal case below. Use simple language suitable for a law student or general audience.\n\nDo not include any follow-up questions or interactive phrases at the end.\n\nOrganize the summary using these sections:\n1. Facts  \n2. Issues  \n3. Reasoning  \n4. Final Finding  \n\nFocus only on core legal arguments, relevant constitutional provisions, and the court’s conclusion. Avoid unnecessary repetition or commentary.\n\nCase details:\n\n"

/-- The `full_text` variable of `generate_summary_prompt` (src/app3.py lines
157-161): the court and title lines followed by one block per non-empty
section, joined by blank lines. -/
def case_full_text (court title : String) (structured_data : List (String × List String)) : String :=
  let sections := ["**Court**: " ++ court, "**Title**: " ++ title] ++
    (structured_data.filter (fun p => !p.2.isEmpty)).map
      (fun p => "**" ++ p.1 ++ "**:\n" ++ String.intercalate "\n" p.2)
  String.intercalate "\n\n" sections

/-- Embeds `generate_summary_prompt` (src/app3.py lines 156-176): the fixed
preamble followed by `full_text[:100000]`. -/
def generate_summary_prompt (court title : String)
    (structured_data : List (String × List String)) : String :=
  promptPreamble ++ strTake (case_full_text court title structured_data) 100000

/-! ### The top-level flow (src/app3.py lines 185-232) -/

/-- The external world one button press runs against: the digest primitive,
the two search backends' responses, the per-link judgment pages, and the
per-prompt subprocess outcome. -/
structure PipelineEnv where
  hash : String → String
  kanoonInput : BackendInput KanoonPage
  serpKeyPresent : Bool
  serpInput : BackendInput SerpPage
  fetch : String → BackendInput CasePage
  proc : String → ProcResult

/-- Mutable state threaded through one run: the cache directory and the number
of `summarize_with_ollama` subprocess invocations performed so far. -/
structure RunState where
  store : Store
  ollamaCalls : Nat
deriving DecidableEq

/-- Outcome of the per-link loop body (src/app3.py lines 200-232): either the
"Structured data not found" warning with `continue`, or a displayed summary. -/
inductive ItemResult where
  | noStructuredData (link : String)
  | done (link title court summary : String)
deriving DecidableEq

/-- Outcome of one button press: the empty-query warning, the no-results
error, or the processed links. -/
inductive RunResult where
  | emptyQuery
  | noResults
  | processed (items : List ItemResult)
deriving DecidableEq

/-- Full observable outcome of one run: the result, the final state, and
whether the SerpAPI fallback was consulted. -/
structure RunOutput where
  result : RunResult
  state : RunState
  usedFallback : Bool
deriving DecidableEq

/-- The `if cached and "summary" in cached` test (src/app3.py line 224): a
`None` load, an empty (falsy) object and an object without a "summary" field
all fall through to fresh summarization; otherwise `cached["summary"]`. -/
def cacheHitSummary : Option (List (String × String)) → Option String
  | none => none
  | some fields => if fields.isEmpty then none else List.lookup "summary" fields

/-- The loop body for one link (src/app3.py lines 200-232): fetch the
structured record; warn and skip when every section is empty; otherwise build
the prompt, consult the cache, and on a miss invoke the summarizer and persist
its result. -/
def processLink (env : PipelineEnv) (query link : String) (st : RunState) :
    ItemResult × RunState :=
  let fr := fetch_structured_case_data (env.fetch link)
  let court := fr.1
  let title := fr.2.1
  let data := fr.2.2
  if !(data.any fun p => !p.2.isEmpty) then (ItemResult.noStructuredData link, st)
  else
    let prompt := generate_summary_prompt court title data
    match cacheHitSummary (load_cached_summary env.hash st.store query title court) with
    | some s => (ItemResult.done link title court s, st)
    | none =>
        let summary := summarize_with_ollama (env.proc prompt)
        (ItemResult.done link title court summary,
          ⟨save_cached_summary env.hash st.store query title court summary,
            st.ollamaCalls + 1⟩)

/-- The `for i, link in enumerate(links, 1)` loop (src/app3.py line 200),
threading the state left to right. -/
def processLinks (env : PipelineEnv) (query : String) :
    List String → RunState → List ItemResult × RunState
  | [], st => ([], st)
  | l :: ls, st =>
      let pr := processLink env query l st
      let rest := processLinks env query ls pr.2
      (pr.1 :: rest.1, rest.2)

/-- The backend-selection step (src/app3.py lines 189-195): the SerpAPI
fallback is consulted exactly when the India Kanoon search produced no links;
the boolean records whether it was consulted. -/
def resolvedLinks (env : PipelineEnv) : List String × Bool :=
  let primary := search_indiakanoon env.kanoonInput
  if primary.isEmpty then (serpapi_fallback_links env.serpKeyPresent env.serpInput, true)
  else (primary, false)

/-- Embeds one press of "Search & Summarize" (src/app3.py lines 185-232). -/
def runPipeline (env : PipelineEnv) (query : String) (st : RunState) : RunOutput :=
  if query = "" then ⟨RunResult.emptyQuery, st, false⟩
  else
    let links := (resolvedLinks env).1
    if links.isEmpty then ⟨RunResult.noResults, st, (resolvedLinks env).2⟩
    else
      let pr := processLinks env query links st
      ⟨RunResult.processed pr.1, pr.2, (resolvedLinks env).2⟩

/-! ### Concrete environments used to instantiate the theorems -/

/-- An environment with a fixed digest (the identity, which is injective on the
inputs exercised here), fixed backend responses, one judgment page served for
every link, and one subprocess outcome for every prompt. -/
def mkEnv (ki : BackendInput KanoonPage) (si : BackendInput SerpPage)
    (ci : BackendInput CasePage) (pr : ProcResult) : PipelineEnv :=
  { hash := id
    kanoonInput := ki
    serpKeyPresent := true
    serpInput := si
    fetch := fun _ => ci
    proc := fun _ => pr }

/-- An India Kanoon results page with one document anchor. -/
def kanoonOneDoc : BackendInput KanoonPage :=
  BackendInput.response ⟨false, true, ["/doc/1234/"]⟩

/-- A SerpAPI response with no organic results. -/
def serpNoHits : BackendInput SerpPage := BackendInput.response ⟨[]⟩

/-- A SerpAPI response with one India Kanoon document link. -/
def serpOneDoc : BackendInput SerpPage :=
  BackendInput.response ⟨["https://indiankanoon.org/doc/99/"]⟩

/-- A judgment page with title, court and one non-empty Facts paragraph. -/
def caseFactsPage : BackendInput CasePage :=
  BackendInput.response ⟨some "Supreme Court of India", some "A vs B",
    fun tag => if tag = "Facts" then ["Some facts."] else []⟩

/-- A judgment page with title and court but no structured paragraphs at all. -/
def caseEmptyPage : BackendInput CasePage :=
  BackendInput.response ⟨some "Supreme Court of India", some "A vs B", fun _ => []⟩

/-! ### General lemmas about the embedding -/

theorem strExt {s t : String} (h : s.data = t.data) : s = t := by
  cases s
  cases t
  exact congrArg String.mk h

theorem strStartsWith_append (pre rest : String) : strStartsWith (pre ++ rest) pre = true := by
  show pre.data.isPrefixOf (pre ++ rest).data = true
  rw [String.data_append, List.isPrefixOf_iff_prefix]
  exact List.prefix_append _ _

theorem lookup_store_cons_self (p : String) (f : CacheFile) (σ : Store) :
    List.lookup p ((p, f) :: σ) = some f := by
  simp [List.lookup]

theorem load_after_save (hash : String → String) (σ : Store) (q t c s : String) :
    load_cached_summary hash (save_cached_summary hash σ q t c s) q t c =
      some [("query", q), ("title", t), ("court", c), ("summary", s)] := by
  unfold load_cached_summary save_cached_summary
  rw [lookup_store_cons_self]

theorem cacheHit_after_save (hash : String → String) (σ : Store) (q t c s : String) :
    cacheHitSummary
      (load_cached_summary hash (save_cached_summary hash σ q t c s) q t c) = some s := by
  rw [load_after_save]
  rfl

theorem kanoonLoop_nil_length (hrefs : List String) : (kanoonLoop [] hrefs).length ≤ 1 := by
  induction hrefs with
  | nil => simp [kanoonLoop]
  | cons h t ih =>
      cases hf : strStartsWith h "/docfragment/" with
      | true => simpa [kanoonLoop, hf] using ih
      | false => simp [kanoonLoop, hf]

theorem serpLoop_nil_length (ls : List String) : (serpLoop [] ls).length ≤ 1 := by
  induction ls with
  | nil => simp [serpLoop]
  | cons h t ih =>
      cases hm : strHasSub h "indiankanoon.org/doc" with
      | true => simp [serpLoop, hm]
      | false => simpa [serpLoop, hm] using ih

theorem search_indiakanoon_length_le (i : BackendInput KanoonPage) :
    (search_indiakanoon i).length ≤ 1 := by
  cases i with
  | excRaised => simp [search_indiakanoon]
  | response p =>
      cases hc : p.hasNoResultsMsg || !p.hasDocMarker with
      | true => simp [search_indiakanoon, hc]
      | false => simpa [search_indiakanoon, hc] using kanoonLoop_nil_length p.docHrefs

theorem serpapi_fallback_links_length_le (k : Bool) (i : BackendInput SerpPage) :
    (serpapi_fallback_links k i).length ≤ 1 := by
  cases i with
  | excRaised => simp [serpapi_fallback_links]
  | response p =>
      cases hk : k with
      | false => simp [serpapi_fallback_links, hk]
      | true => simpa [serpapi_fallback_links, hk] using serpLoop_nil_length p.organicLinks

theorem resolvedLinks_of_primary (env : PipelineEnv) (l : String) (ls : List String)
    (hp : search_indiakanoon env.kanoonInput = l :: ls) :
    resolvedLinks env = (l :: ls, false) := by
  unfold resolvedLinks
  rw [hp]
  rfl

theorem resolvedLinks_of_fallback (env : PipelineEnv)
    (hp : search_indiakanoon env.kanoonInput = []) :
    resolvedLinks env = (serpapi_fallback_links env.serpKeyPresent env.serpInput, true) := by
  unfold resolvedLinks
  rw [hp]
  rfl

theorem resolvedLinks_length_le (env : PipelineEnv) : (resolvedLinks env).1.length ≤ 1 := by
  cases hp : search_indiakanoon env.kanoonInput with
  | nil =>
      rw [resolvedLinks_of_fallback env hp]
      exact serpapi_fallback_links_length_le _ _
  | cons a as =>
      rw [resolvedLinks_of_primary env a as hp]
      have hlen := search_indiakanoon_length_le env.kanoonInput
      rw [hp] at hlen
      exact hlen

theorem resolvedLinks_usedFallback (env : PipelineEnv) :
    (resolvedLinks env).2 = (search_indiakanoon env.kanoonInput).isEmpty := by
  unfold resolvedLinks
  cases h : (search_indiakanoon env.kanoonInput).isEmpty <;> simp [h]

theorem runPipeline_single (env : PipelineEnv) (q l : String) (st : RunState)
    (hq : ¬ q = "") (hl : (resolvedLinks env).1 = [l]) :
    runPipeline env q st =
      ⟨RunResult.processed [(processLink env q l st).1], (processLink env q l st).2,
        (resolvedLinks env).2⟩ := by
  simp only [runPipeline, if_neg hq, hl]
  simp [processLinks]

theorem processLink_fresh (env : PipelineEnv) (q l court title : String)
    (data : List (String × List String)) (σ : Store) (n : Nat)
    (hd : fetch_structured_case_data (env.fetch l) = (court, title, data))
    (hne : (data.any fun p => !p.2.isEmpty) = true)
    (hmiss : cacheHitSummary (load_cached_summary env.hash σ q title court) = none) :
    processLink env q l ⟨σ, n⟩ =
      (ItemResult.done l title court
          (summarize_with_ollama (env.proc (generate_summary_prompt court title data))),
        ⟨save_cached_summary env.hash σ q title court
            (summarize_with_ollama (env.proc (generate_summary_prompt court title data))),
          n + 1⟩) := by
  simp only [processLink, hd, hne]
  simp [hmiss]

theorem processLink_no_sections (env : PipelineEnv) (q l court title : String)
    (data : List (String × List String)) (st : RunState)
    (hd : fetch_structured_case_data (env.fetch l) = (court, title, data))
    (hall : (data.any fun p => !p.2.isEmpty) = false) :
    processLink env q l st = (ItemResult.noStructuredData l, st) := by
  simp [processLink, hd, hall]

theorem processLink_done_stable (env : PipelineEnv) (q l l' t c s : String)
    (st st' : RunState) (m : Nat)
    (h : processLink env q l st = (ItemResult.done l' t c s, st')) :
    processLink env q l ⟨st'.store, m⟩ = (ItemResult.done l' t c s, ⟨st'.store, m⟩) := by
  rcases hd : fetch_structured_case_data (env.fetch l) with ⟨court, title, data⟩
  simp only [processLink, hd] at h ⊢
  cases hne : (data.any fun p => !p.2.isEmpty) with
  | false => simp [hne] at h
  | true =>
      simp only [hne, Bool.not_true, Bool.false_eq_true, if_false] at h ⊢
      cases hch : cacheHitSummary (load_cached_summary env.hash st.store q title court) with
      | some s₀ =>
          rw [hch] at h
          obtain ⟨⟨hl', ht, hc, hs⟩, hst⟩ := by
            simpa [Prod.ext_iff, ItemResult.done.injEq] using h
          subst hst
          rw [hch]
          simp [hl', ht, hc, hs]
      | none =>
          rw [hch] at h
          obtain ⟨⟨hl', ht, hc, hs⟩, hst⟩ := by
            simpa [Prod.ext_iff, ItemResult.done.injEq] using h
          rw [← hst]
          simp only [RunState.store]
          rw [← hs, ← ht, ← hc]
          rw [cacheHit_after_save]
          simp [hl']

theorem sep_append_inj : ∀ (a₁ a₂ b₁ b₂ : List Char), '|' ∉ a₁ → '|' ∉ a₂ →
    a₁ ++ '|' :: b₁ = a₂ ++ '|' :: b₂ → a₁ = a₂ ∧ b₁ = b₂
  | [], [], b₁, b₂, _, _, h => by simpa using h
  | [], x :: xs, b₁, b₂, _, h₂, h => by
      exfalso
      simp only [List.nil_append, List.cons_append, List.cons.injEq] at h
      exact h₂ (by rw [← h.1]; exact List.mem_cons_self _ _)
  | a :: as, [], b₁, b₂, h₁, _, h => by
      exfalso
      simp only [List.cons_append, List.nil_append, List.cons.injEq] at h
      exact h₁ (by rw [← h.1]; exact List.mem_cons_self _ _)
  | a :: as, x :: xs, b₁, b₂, h₁, h₂, h => by
      simp only [List.cons_append, List.cons.injEq] at h
      obtain ⟨hax, htail⟩ := h
      obtain ⟨he, hb⟩ := sep_append_inj as xs b₁ b₂
        (fun hm => h₁ (List.mem_cons_of_mem _ hm))
        (fun hm => h₂ (List.mem_cons_of_mem _ hm)) htail
      exact ⟨by rw [hax, he], hb⟩

theorem cacheKeyString_data (q t c : String) :
    (cacheKeyString q t c).data = q.data ++ '|' :: (t.data ++ '|' :: c.data) := by
  have hbar : ("|" : String).data = ['|'] := rfl
  show (q ++ "|" ++ t ++ "|" ++ c).data = _
  simp [String.data_append, hbar]

theorem cacheKeyString_inj (q₁ t₁ c₁ q₂ t₂ c₂ : String)
    (hq₁ : '|' ∉ q₁.data) (hq₂ : '|' ∉ q₂.data)
    (ht₁ : '|' ∉ t₁.data) (ht₂ : '|' ∉ t₂.data)
    (h : cacheKeyString q₁ t₁ c₁ = cacheKeyString q₂ t₂ c₂) :
    q₁ = q₂ ∧ t₁ = t₂ ∧ c₁ = c₂ := by
  have hd := congrArg String.data h
  rw [cacheKeyString_data, cacheKeyString_data] at hd
  obtain ⟨hq, hrest⟩ := sep_append_inj _ _ _ _ hq₁ hq₂ hd
  obtain ⟨ht, hc⟩ := sep_append_inj _ _ _ _ ht₁ ht₂ hrest
  exact ⟨strExt hq, strExt ht, strExt hc⟩

/-! ### The claims -/

/-- C1: the specification requires that a summarization result carrying the
error sentinel is never persisted into the cache store and is only surfaced to
the caller.  The code violates this: `save_cached_summary` is called
unconditionally after every fresh summarization (src/app3.py lines 227-228),
so a run whose subprocess times out leaves a cache entry whose "summary" field
is exactly the timeout sentinel at the run's (query, title, court) key. -/
theorem C1_sentinel_persisted :
    List.lookup (get_cache_path id "X vs Y 2007" "A vs B" "Supreme Court of India")
        ((runPipeline (mkEnv kanoonOneDoc serpNoHits caseFactsPage ProcResult.timedOut)
            "X vs Y 2007" ⟨[], 0⟩).state.store) =
      some (CacheFile.obj [("query", "X vs Y 2007"), ("title", "A vs B"),
        ("court", "Supreme Court of India"), ("summary", "⚠️ Summarization timed out.")]) ∧
    isErrorSentinel "⚠️ Summarization timed out." = true := by
  decide

/-- C2: idempotence of cached summarization.  If a run of the pipeline
produced a displayed summary `s` for its one resolved link, then a second run
of the same query against the resulting cache performs zero
`summarize_with_ollama` invocations (its call counter starts and ends at 0),
returns byte-identical summary text `s`, and leaves the cache unchanged. -/
theorem C2_second_run_cached (env : PipelineEnv) (q l t c s : String)
    (σ : Store) (n : Nat) (st₁ : RunState) (fb : Bool)
    (h : runPipeline env q ⟨σ, n⟩ =
      ⟨RunResult.processed [ItemResult.done l t c s], st₁, fb⟩) :
    runPipeline env q ⟨st₁.store, 0⟩ =
      ⟨RunResult.processed [ItemResult.done l t c s], ⟨st₁.store, 0⟩, fb⟩ := by
  by_cases hq : q = ""
  · rw [hq] at h
    simp [runPipeline] at h
  · cases hl : (resolvedLinks env).1 with
    | nil => simp [runPipeline, hq, hl] at h
    | cons l₀ ls =>
        have hls : ls = [] := by
          have hle := resolvedLinks_length_le env
          rw [hl] at hle
          simpa using hle
        subst hls
        rw [runPipeline_single env q l₀ _ hq hl] at h
        rcases hpl : processLink env q l₀ ⟨σ, n⟩ with ⟨r, st₂⟩
        rw [hpl] at h
        obtain ⟨hr, hst, hfb⟩ := by
          simpa [RunOutput.mk.injEq, RunResult.processed.injEq] using h
        subst hr
        rw [hst] at hpl
        have hstable := processLink_done_stable env q l₀ l t c s ⟨σ, n⟩ st₁ 0 hpl
        rw [runPipeline_single env q l₀ _ hq hl, hstable, hfb]

/-- Witness for C2: a first run at an empty cache summarizes once and
persists; the second run at the resulting cache returns the identical summary
with its invocation counter still at zero. -/
theorem C2_second_run_cached_witness :
    runPipeline (mkEnv kanoonOneDoc serpNoHits caseFactsPage (ProcResult.completed 0 "SUM" ""))
        "X vs Y 2007" ⟨[], 0⟩ =
      ⟨RunResult.processed [ItemResult.done "https://indiankanoon.org/doc/1234/" "A vs B"
          "Supreme Court of India" "SUM"],
        ⟨save_cached_summary id [] "X vs Y 2007" "A vs B" "Supreme Court of India" "SUM", 1⟩,
        false⟩ ∧
    runPipeline (mkEnv kanoonOneDoc serpNoHits caseFactsPage (ProcResult.completed 0 "SUM" ""))
        "X vs Y 2007"
        ⟨save_cached_summary id [] "X vs Y 2007" "A vs B" "Supreme Court of India" "SUM", 0⟩ =
      ⟨RunResult.processed [ItemResult.done "https://indiankanoon.org/doc/1234/" "A vs B"
          "Supreme Court of India" "SUM"],
        ⟨save_cached_summary id [] "X vs Y 2007" "A vs B" "Supreme Court of India" "SUM", 0⟩,
        false⟩ :=
  ⟨by decide,
    C2_second_run_cached
      (mkEnv kanoonOneDoc serpNoHits caseFactsPage (ProcResult.completed 0 "SUM" ""))
      "X vs Y 2007" "https://indiankanoon.org/doc/1234/" "A vs B" "Supreme Court of India"
      "SUM" [] 0
      ⟨save_cached_summary id [] "X vs Y 2007" "A vs B" "Supreme Court of India" "SUM", 1⟩
      false (by decide)⟩

/-- C3 counterexample: the claim that no two distinct (query, title, court)
triples yield the same cache key is false, because the pre-digest key joins
the fields with a bare `|`: the distinct triples ("a|b", "c", "d") and
("a", "b|c", "d") produce the same key string, hence the same cache path for
any digest function (exhibited at the identity digest). -/
theorem C3_delimiter_collision :
    (("a|b", "c", "d") : String × String × String) ≠ ("a", "b|c", "d") ∧
    cacheKeyString "a|b" "c" "d" = cacheKeyString "a" "b|c" "d" ∧
    get_cache_path id "a|b" "c" "d" = get_cache_path id "a" "b|c" "d" := by
  decide

/-- C3 (amended): cache-key derivation is a deterministic function of the
triple, and for an injective digest it is collision-free on all triples whose
query and title contain no `|` delimiter; with delimiter-containing fields
distinct triples can collide (see the counterexample). -/
theorem C3_deterministic_and_injective_on_pipe_free (hash : String → String)
    (hinj : Function.Injective hash) (q₁ t₁ c₁ q₂ t₂ c₂ : String)
    (hq₁ : '|' ∉ q₁.data) (hq₂ : '|' ∉ q₂.data)
    (ht₁ : '|' ∉ t₁.data) (ht₂ : '|' ∉ t₂.data) :
    get_cache_path hash q₁ t₁ c₁ = get_cache_path hash q₂ t₂ c₂ ↔
      (q₁, t₁, c₁) = (q₂, t₂, c₂) := by
  constructor
  · intro h
    have hd := congrArg String.data h
    simp only [get_cache_path, String.data_append, List.append_assoc] at hd
    have h2 := List.append_cancel_left (List.append_cancel_left hd)
    have h3 := List.append_cancel_right h2
    have hke : hash (cacheKeyString q₁ t₁ c₁) = hash (cacheKeyString q₂ t₂ c₂) := strExt h3
    obtain ⟨hq, ht, hc⟩ := cacheKeyString_inj _ _ _ _ _ _ hq₁ hq₂ ht₁ ht₂ (hinj hke)
    rw [hq, ht, hc]
  · intro h
    rw [Prod.mk.injEq, Prod.mk.injEq] at h
    obtain ⟨h1, h2, h3⟩ := h
    rw [h1, h2, h3]

/-- Witness for the amended C3 at concrete pipe-free fields and the injective
identity digest. -/
theorem C3_deterministic_and_injective_on_pipe_free_witness :
    get_cache_path id "a" "b" "c" = get_cache_path id "a" "b" "c" ↔
      (("a", "b", "c") : String × String × String) = ("a", "b", "c") :=
  C3_deterministic_and_injective_on_pipe_free id (fun _ _ hh => hh) "a" "b" "c" "a" "b" "c"
    (by decide) (by decide) (by decide) (by decide)

/-- C4: the SerpAPI fallback is consulted exactly when the India Kanoon search
returned no links (its own exceptions having been converted to the empty
list).  Both directions are established: for an arbitrary, unconstrained
environment `env₂` the fallback-consulted flag equals the primary's emptiness,
and whenever the primary yields links the fallback is not consulted and those
links are the ones used.  Moreover, when the primary backend is empty while
the fallback yields one reference, the pipeline completes using the fallback's
reference. -/
theorem C4_fallback_order (env env₂ : PipelineEnv) (q l court title : String)
    (data : List (String × List String)) (σ : Store) (n : Nat)
    (hq : ¬ q = "")
    (hp : search_indiakanoon env.kanoonInput = [])
    (hf : serpapi_fallback_links env.serpKeyPresent env.serpInput = [l])
    (hd : fetch_structured_case_data (env.fetch l) = (court, title, data))
    (hne : (data.any fun p => !p.2.isEmpty) = true)
    (hmiss : cacheHitSummary (load_cached_summary env.hash σ q title court) = none) :
    (resolvedLinks env₂).2 = (search_indiakanoon env₂.kanoonInput).isEmpty ∧
    (search_indiakanoon env₂.kanoonInput ≠ [] →
      resolvedLinks env₂ = (search_indiakanoon env₂.kanoonInput, false)) ∧
    runPipeline env q ⟨σ, n⟩ =
      ⟨RunResult.processed [ItemResult.done l title court
          (summarize_with_ollama (env.proc (generate_summary_prompt court title data)))],
        ⟨save_cached_summary env.hash σ q title court
            (summarize_with_ollama (env.proc (generate_summary_prompt court title data))),
          n + 1⟩, true⟩ := by
  refine ⟨resolvedLinks_usedFallback env₂, ?_, ?_⟩
  · intro hne₂
    cases hp₂ : search_indiakanoon env₂.kanoonInput with
    | nil => exact absurd hp₂ hne₂
    | cons a as => exact resolvedLinks_of_primary env₂ a as hp₂
  · have hrl := resolvedLinks_of_fallback env hp
    have hl : (resolvedLinks env).1 = [l] := by rw [hrl, hf]
    rw [runPipeline_single env q l _ hq hl,
      processLink_fresh env q l court title data σ n hd hne hmiss]
    rw [hrl]

/-- Witness for C4: on one side the primary backend raises (hence resolves to
nothing), the SerpAPI fallback returns one document link, and the pipeline
completes with a summary for that link; on the other side an environment whose
primary backend yields a link shows the fallback is not consulted there. -/
theorem C4_fallback_order_witness :
    (resolvedLinks (mkEnv kanoonOneDoc serpNoHits caseFactsPage
        (ProcResult.completed 0 "SUM" ""))).2 =
      (search_indiakanoon (mkEnv kanoonOneDoc serpNoHits caseFactsPage
        (ProcResult.completed 0 "SUM" "")).kanoonInput).isEmpty ∧
    (search_indiakanoon (mkEnv kanoonOneDoc serpNoHits caseFactsPage
        (ProcResult.completed 0 "SUM" "")).kanoonInput ≠ [] →
      resolvedLinks (mkEnv kanoonOneDoc serpNoHits caseFactsPage
          (ProcResult.completed 0 "SUM" "")) =
        (search_indiakanoon (mkEnv kanoonOneDoc serpNoHits caseFactsPage
          (ProcResult.completed 0 "SUM" "")).kanoonInput, false)) ∧
    runPipeline (mkEnv BackendInput.excRaised serpOneDoc caseFactsPage
        (ProcResult.completed 0 "SUM" "")) "X vs Y 2007" ⟨[], 0⟩ =
      ⟨RunResult.processed [ItemResult.done "https://indiankanoon.org/doc/99/" "A vs B"
          "Supreme Court of India"
          (summarize_with_ollama ((mkEnv BackendInput.excRaised serpOneDoc caseFactsPage
              (ProcResult.completed 0 "SUM" "")).proc
            (generate_summary_prompt "Supreme Court of India" "A vs B"
              [("Facts", ["Some facts."]), ("Issue", []), ("Section", []),
                ("CDiscource", []), ("Precedent", [])])))],
        ⟨save_cached_summary id [] "X vs Y 2007" "A vs B" "Supreme Court of India"
            (summarize_with_ollama ((mkEnv BackendInput.excRaised serpOneDoc caseFactsPage
                (ProcResult.completed 0 "SUM" "")).proc
              (generate_summary_prompt "Supreme Court of India" "A vs B"
                [("Facts", ["Some facts."]), ("Issue", []), ("Section", []),
                  ("CDiscource", []), ("Precedent", [])]))),
          1⟩, true⟩ :=
  C4_fallback_order
    (mkEnv BackendInput.excRaised serpOneDoc caseFactsPage (ProcResult.completed 0 "SUM" ""))
    (mkEnv kanoonOneDoc serpNoHits caseFactsPage (ProcResult.completed 0 "SUM" ""))
    "X vs Y 2007" "https://indiankanoon.org/doc/99/" "Supreme Court of India" "A vs B"
    [("Facts", ["Some facts."]), ("Issue", []), ("Section", []),
      ("CDiscource", []), ("Precedent", [])] [] 0
    (by decide) (by decide) (by decide) (by decide) (by decide) (by decide)

/-- C5: when both backends resolve to zero references, the pipeline halts with
the no-results error, and the state — cache store and summarizer invocation
count alike — is left exactly as it was: no cache write and no summarization
call happen. -/
theorem C5_no_results_halts (env : PipelineEnv) (q : String) (σ : Store) (n : Nat)
    (hq : ¬ q = "")
    (hp : search_indiakanoon env.kanoonInput = [])
    (hf : serpapi_fallback_links env.serpKeyPresent env.serpInput = []) :
    runPipeline env q ⟨σ, n⟩ = ⟨RunResult.noResults, ⟨σ, n⟩, true⟩ := by
  have hrl := resolvedLinks_of_fallback env hp
  simp [runPipeline, hq, hrl, hf]

/-- Witness for C5: both backends raise, so both resolve to zero references,
and the run reports no results leaving the state untouched. -/
theorem C5_no_results_halts_witness :
    runPipeline (mkEnv BackendInput.excRaised BackendInput.excRaised caseFactsPage
        ProcResult.timedOut) "X vs Y 2007" ⟨[], 0⟩ =
      ⟨RunResult.noResults, ⟨[], 0⟩, true⟩ :=
  C5_no_results_halts
    (mkEnv BackendInput.excRaised BackendInput.excRaised caseFactsPage ProcResult.timedOut)
    "X vs Y 2007" [] 0 (by decide) (by decide) (by decide)

/-- C6: `load_cached_summary` returns `none` (rather than raising) on a
missing cache file, and a cache file that exists but fails to deserialize is
also reported as `none`, whereupon the pipeline performs a fresh summarization
and completes normally — no exception reaches the caller (every embedded
function is total). -/
theorem C6_cache_robustness (env : PipelineEnv) (q l court title : String)
    (data : List (String × List String)) (σ σ' : Store) (n : Nat)
    (hq : ¬ q = "")
    (hmissingFile : List.lookup (get_cache_path env.hash q title court) σ' = none)
    (hp : search_indiakanoon env.kanoonInput = [l])
    (hd : fetch_structured_case_data (env.fetch l) = (court, title, data))
    (hne : (data.any fun p => !p.2.isEmpty) = true)
    (hcorrupt : List.lookup (get_cache_path env.hash q title court) σ =
      some CacheFile.corrupt) :
    load_cached_summary env.hash σ' q title court = none ∧
    load_cached_summary env.hash σ q title court = none ∧
    runPipeline env q ⟨σ, n⟩ =
      ⟨RunResult.processed [ItemResult.done l title court
          (summarize_with_ollama (env.proc (generate_summary_prompt court title data)))],
        ⟨save_cached_summary env.hash σ q title court
            (summarize_with_ollama (env.proc (generate_summary_prompt court title data))),
          n + 1⟩, false⟩ := by
  have h1 : load_cached_summary env.hash σ' q title court = none := by
    unfold load_cached_summary
    rw [hmissingFile]
  have h2 : load_cached_summary env.hash σ q title court = none := by
    unfold load_cached_summary
    rw [hcorrupt]
  refine ⟨h1, h2, ?_⟩
  have hrl := resolvedLinks_of_primary env l [] hp
  have hl : (resolvedLinks env).1 = [l] := by rw [hrl]
  rw [runPipeline_single env q l _ hq hl,
    processLink_fresh env q l court title data σ n hd hne (by rw [h2]; rfl)]
  rw [hrl]

/-- Witness for C6: a store holding only a corrupt file at the run's key (and
an empty store for the missing-file part) leads to a fresh summarization. -/
theorem C6_cache_robustness_witness :
    load_cached_summary id [] "X vs Y 2007" "A vs B" "Supreme Court of India" = none ∧
    load_cached_summary id
        [(get_cache_path id "X vs Y 2007" "A vs B" "Supreme Court of India",
          CacheFile.corrupt)]
        "X vs Y 2007" "A vs B" "Supreme Court of India" = none ∧
    runPipeline (mkEnv kanoonOneDoc serpNoHits caseFactsPage (ProcResult.completed 0 "SUM" ""))
        "X vs Y 2007"
        ⟨[(get_cache_path id "X vs Y 2007" "A vs B" "Supreme Court of India",
          CacheFile.corrupt)], 0⟩ =
      ⟨RunResult.processed [ItemResult.done "https://indiankanoon.org/doc/1234/" "A vs B"
          "Supreme Court of India"
          (summarize_with_ollama ((mkEnv kanoonOneDoc serpNoHits caseFactsPage
              (ProcResult.completed 0 "SUM" "")).proc
            (generate_summary_prompt "Supreme Court of India" "A vs B"
              [("Facts", ["Some facts."]), ("Issue", []), ("Section", []),
                ("CDiscource", []), ("Precedent", [])])))],
        ⟨save_cached_summary id
            [(get_cache_path id "X vs Y 2007" "A vs B" "Supreme Court of India",
              CacheFile.corrupt)]
            "X vs Y 2007" "A vs B" "Supreme Court of India"
            (summarize_with_ollama ((mkEnv kanoonOneDoc serpNoHits caseFactsPage
                (ProcResult.completed 0 "SUM" "")).proc
              (generate_summary_prompt "Supreme Court of India" "A vs B"
                [("Facts", ["Some facts."]), ("Issue", []), ("Section", []),
                  ("CDiscource", []), ("Precedent", [])]))),
          1⟩, false⟩ :=
  C6_cache_robustness
    (mkEnv kanoonOneDoc serpNoHits caseFactsPage (ProcResult.completed 0 "SUM" ""))
    "X vs Y 2007" "https://indiankanoon.org/doc/1234/" "Supreme Court of India" "A vs B"
    [("Facts", ["Some facts."]), ("Issue", []), ("Section", []),
      ("CDiscource", []), ("Precedent", [])]
    [(get_cache_path id "X vs Y 2007" "A vs B" "Supreme Court of India", CacheFile.corrupt)]
    [] 0
    (by decide) (by decide) (by decide) (by decide) (by decide) (by decide)

/-- C7 counterexample: the claim that empty output from the external process
yields a sentinel error result is false — a zero exit status with empty stdout
(here even with non-empty stderr) is returned verbatim as the summary, and it
does not carry the sentinel marker. -/
theorem C7_empty_output_no_sentinel :
    summarize_with_ollama (ProcResult.completed 0 "" "boom") = "" ∧
    isErrorSentinel "" = false := by
  decide

/-- C7 (amended): `summarize_with_ollama` never raises (it is a total function
of the subprocess outcome); a timeout yields exactly the timeout sentinel, a
non-zero exit status and any in-call exception yield sentinel error results,
while a zero exit status returns stdout verbatim — including when stdout is
empty, which is not converted to a sentinel. -/
theorem C7_sentinel_classification (rc : Int) (out err msg : String) (hrc : rc ≠ 0) :
    summarize_with_ollama ProcResult.timedOut = "⚠️ Summarization timed out." ∧
    isErrorSentinel (summarize_with_ollama ProcResult.timedOut) = true ∧
    isErrorSentinel (summarize_with_ollama (ProcResult.completed rc out err)) = true ∧
    isErrorSentinel (summarize_with_ollama (ProcResult.excRaised msg)) = true ∧
    summarize_with_ollama (ProcResult.completed 0 out err) = out := by
  refine ⟨rfl, by decide, ?_, ?_, by simp [summarize_with_ollama]⟩
  · show isErrorSentinel (if rc ≠ 0 then "⚠️ Ollama error: " ++ err else out) = true
    rw [if_pos hrc]
    simp [isErrorSentinel, strStartsWith_append]
  · simp [summarize_with_ollama, isErrorSentinel, strStartsWith_append]

/-- Witness for the amended C7 at exit code 1. -/
theorem C7_sentinel_classification_witness :
    summarize_with_ollama ProcResult.timedOut = "⚠️ Summarization timed out." ∧
    isErrorSentinel (summarize_with_ollama ProcResult.timedOut) = true ∧
    isErrorSentinel (summarize_with_ollama (ProcResult.completed 1 "done" "boom")) = true ∧
    isErrorSentinel (summarize_with_ollama (ProcResult.excRaised "oops")) = true ∧
    summarize_with_ollama (ProcResult.completed 0 "done" "boom") = "done" :=
  C7_sentinel_classification 1 "done" "boom" "oops" (by decide)

/-- C8 counterexample: the claim that the pipeline falls back to raw judgment
text when every structured section is empty is false — there is no raw-text
fallback in this variant.  With a resolvable link whose page has all sections
empty, the run ends in the "Structured data not found" skip with zero
summarizer invocations and no cache write, even though the subprocess stood
ready to return a summary. -/
theorem C8_no_raw_fallback :
    runPipeline (mkEnv kanoonOneDoc serpNoHits caseEmptyPage (ProcResult.completed 0 "SUM" ""))
        "X vs Y 2007" ⟨[], 0⟩ =
      ⟨RunResult.processed [ItemResult.noStructuredData "https://indiankanoon.org/doc/1234/"],
        ⟨[], 0⟩, false⟩ := by
  decide

/-- C8 (amended): on any link whose extracted record has every structured
section empty, the pipeline aborts that item with the "Structured data not
found" warning, invoking no Summarizer and writing nothing to the cache; the
raw judgment text is never consulted (this variant does not recover any). -/
theorem C8_empty_sections_abort (env : PipelineEnv) (q l court title : String)
    (data : List (String × List String)) (σ : Store) (n : Nat)
    (hq : ¬ q = "")
    (hp : search_indiakanoon env.kanoonInput = [l])
    (hd : fetch_structured_case_data (env.fetch l) = (court, title, data))
    (hall : (data.any fun p => !p.2.isEmpty) = false) :
    runPipeline env q ⟨σ, n⟩ =
      ⟨RunResult.processed [ItemResult.noStructuredData l], ⟨σ, n⟩, false⟩ := by
  have hrl := resolvedLinks_of_primary env l [] hp
  have hl : (resolvedLinks env).1 = [l] := by rw [hrl]
  rw [runPipeline_single env q l _ hq hl,
    processLink_no_sections env q l court title data _ hd hall]
  rw [hrl]

/-- Witness for the amended C8 at a concrete empty-sections page. -/
theorem C8_empty_sections_abort_witness :
    runPipeline (mkEnv kanoonOneDoc serpNoHits caseEmptyPage ProcResult.timedOut)
        "Some Case 2010" ⟨[], 7⟩ =
      ⟨RunResult.processed [ItemResult.noStructuredData "https://indiankanoon.org/doc/1234/"],
        ⟨[], 7⟩, false⟩ :=
  C8_empty_sections_abort
    (mkEnv kanoonOneDoc serpNoHits caseEmptyPage ProcResult.timedOut)
    "Some Case 2010" "https://indiankanoon.org/doc/1234/" "Supreme Court of India" "A vs B"
    [("Facts", []), ("Issue", []), ("Section", []), ("CDiscource", []), ("Precedent", [])]
    [] 7
    (by decide) (by decide) (by decide) (by decide)

/-- C9: the case-details text embedded in the prompt is `full_text[:100000]`,
whose length never exceeds the fixed 100,000-character budget, and the prompt
is exactly the fixed preamble followed by that truncated text. -/
theorem C9_prompt_truncation (court title : String)
    (structured_data : List (String × List String)) :
    generate_summary_prompt court title structured_data =
      promptPreamble ++ strTake (case_full_text court title structured_data) 100000 ∧
    (strTake (case_full_text court title structured_data) 100000).length ≤ 100000 := by
  refine ⟨rfl, ?_⟩
  show ((case_full_text court title structured_data).data.take 100000).length ≤ 100000
  exact List.length_take_le _ _

/-- C10: a cache file that deserializes to an object lacking a "summary" field
is treated as a cache miss — the pipeline runs a fresh summarization and
persists (overwrites) the entry at the same path — rather than returning a
partial record or raising. -/
theorem C10_missing_summary_overwrites (env : PipelineEnv) (q l court title : String)
    (data : List (String × List String)) (fields : List (String × String))
    (σ : Store) (n : Nat)
    (hq : ¬ q = "")
    (hp : search_indiakanoon env.kanoonInput = [l])
    (hd : fetch_structured_case_data (env.fetch l) = (court, title, data))
    (hne : (data.any fun p => !p.2.isEmpty) = true)
    (hfile : List.lookup (get_cache_path env.hash q title court) σ =
      some (CacheFile.obj fields))
    (hnosum : List.lookup "summary" fields = none) :
    load_cached_summary env.hash σ q title court = some fields ∧
    runPipeline env q ⟨σ, n⟩ =
      ⟨RunResult.processed [ItemResult.done l title court
          (summarize_with_ollama (env.proc (generate_summary_prompt court title data)))],
        ⟨save_cached_summary env.hash σ q title court
            (summarize_with_ollama (env.proc (generate_summary_prompt court title data))),
          n + 1⟩, false⟩ := by
  have h1 : load_cached_summary env.hash σ q title court = some fields := by
    unfold load_cached_summary
    rw [hfile]
  have hmiss : cacheHitSummary (load_cached_summary env.hash σ q title court) = none := by
    rw [h1]
    unfold cacheHitSummary
    cases hfe : fields.isEmpty with
    | true => simp [hfe]
    | false => simp [hfe, hnosum]
  refine ⟨h1, ?_⟩
  have hrl := resolvedLinks_of_primary env l [] hp
  have hl : (resolvedLinks env).1 = [l] := by rw [hrl]
  rw [runPipeline_single env q l _ hq hl,
    processLink_fresh env q l court title data σ n hd hne hmiss]
  rw [hrl]

/-- Witness for C10: a cache file holding only query/title/court (no
"summary" field) is bypassed and overwritten by a fresh summarization. -/
theorem C10_missing_summary_overwrites_witness :
    load_cached_summary id
        [(get_cache_path id "X vs Y 2007" "A vs B" "Supreme Court of India",
          CacheFile.obj [("query", "X vs Y 2007"), ("title", "A vs B"),
            ("court", "Supreme Court of India")])]
        "X vs Y 2007" "A vs B" "Supreme Court of India" =
      some [("query", "X vs Y 2007"), ("title", "A vs B"),
        ("court", "Supreme Court of India")] ∧
    runPipeline (mkEnv kanoonOneDoc serpNoHits caseFactsPage (ProcResult.completed 0 "SUM" ""))
        "X vs Y 2007"
        ⟨[(get_cache_path id "X vs Y 2007" "A vs B" "Supreme Court of India",
          CacheFile.obj [("query", "X vs Y 2007"), ("title", "A vs B"),
            ("court", "Supreme Court of India")])], 0⟩ =
      ⟨RunResult.processed [ItemResult.done "https://indiankanoon.org/doc/1234/" "A vs B"
          "Supreme Court of India"
          (summarize_with_ollama ((mkEnv kanoonOneDoc serpNoHits caseFactsPage
              (ProcResult.completed 0 "SUM" "")).proc
            (generate_summary_prompt "Supreme Court of India" "A vs B"
              [("Facts", ["Some facts."]), ("Issue", []), ("Section", []),
                ("CDiscource", []), ("Precedent", [])])))],
        ⟨save_cached_summary id
            [(get_cache_path id "X vs Y 2007" "A vs B" "Supreme Court of India",
              CacheFile.obj [("query", "X vs Y 2007"), ("title", "A vs B"),
                ("court", "Supreme Court of India")])]
            "X vs Y 2007" "A vs B" "Supreme Court of India"
            (summarize_with_ollama ((mkEnv kanoonOneDoc serpNoHits caseFactsPage
                (ProcResult.completed 0 "SUM" "")).proc
              (generate_summary_prompt "Supreme Court of India" "A vs B"
                [("Facts", ["Some facts."]), ("Issue", []), ("Section", []),
                  ("CDiscource", []), ("Precedent", [])]))),
          1⟩, false⟩ :=
  C10_missing_summary_overwrites
    (mkEnv kanoonOneDoc serpNoHits caseFactsPage (ProcResult.completed 0 "SUM" ""))
    "X vs Y 2007" "https://indiankanoon.org/doc/1234/" "Supreme Court of India" "A vs B"
    [("Facts", ["Some facts."]), ("Issue", []), ("Section", []),
      ("CDiscource", []), ("Precedent", [])]
    [("query", "X vs Y 2007"), ("title", "A vs B"), ("court", "Supreme Court of India")]
    [(get_cache_path id "X vs Y 2007" "A vs B" "Supreme Court of India",
      CacheFile.obj [("query", "X vs Y 2007"), ("title", "A vs B"),
        ("court", "Supreme Court of India")])]
    0
    (by decide) (by decide) (by decide) (by decide) (by decide) (by decide)

end App3
